import Mathlib

/-!
Shallow embedding of `src/backend/winit.rs` — the winit input/graphics backend
of the smithay repository.  The development models the input half: the
normalized event types with their accessors and coordinate transforms, the
`dispatch_new_events` drain loop (as a pure fold over the queued native-event
batch), and the handler slot with its seat lifecycle notifications.

Machine-integer conventions: `u32` values are `Nat` and `i32`/`i64` values are
`Int`; the wrapping additions the source performs on the `u32` counters are
written with an explicit `% 2^32`; `as u32` / `as i32` casts are explicit
functions.  Intermediate `i32` arithmetic in the coordinate transforms
(overflow of which is a Rust program error: a panic in debug builds) is
modelled exactly over `Int`.  `f32`/`f64` values (wheel deltas, touch
locations) are modelled as exact rationals; the float-to-integer casts the
source performs are explicit truncating functions.
-/

/-- winit `ElementState`. -/
inductive ElementState
  | Pressed
  | Released
deriving DecidableEq

/-- Model of `backend::input::KeyState` (modelled from its use in this file: the
`From<ElementState>` impl at the bottom of the source). -/
inductive KeyState
  | Pressed
  | Released
deriving DecidableEq

/-- Model of `backend::input::MouseButtonState` (modelled from the `From<ElementState>` impl). -/
inductive MouseButtonState
  | Pressed
  | Released
deriving DecidableEq

/-- Model of `backend::input::Axis`. -/
inductive Axis
  | Horizontal
  | Vertical
deriving DecidableEq

/-- Model of `backend::input::AxisSource`; only the two variants produced by this
backend (`Wheel` for line deltas, `Continuous` for pixel deltas) are modelled. -/
inductive AxisSource
  | Wheel
  | Continuous
deriving DecidableEq

/-- winit `MouseButton`. -/
inductive WinitMouseButton
  | Left
  | Right
  | Middle
  | Other (n : Nat)
deriving DecidableEq

/-- Model of `backend::input::MouseButton`. -/
inductive MouseButton
  | Left
  | Right
  | Middle
  | Other (n : Nat)
deriving DecidableEq

/-- Model of `impl From<WinitMouseButton> for MouseButton` (source lines 616-625). -/
def winitMouseButtonInto : WinitMouseButton → MouseButton
  | WinitMouseButton.Left => MouseButton.Left
  | WinitMouseButton.Right => MouseButton.Right
  | WinitMouseButton.Middle => MouseButton.Middle
  | WinitMouseButton.Other n => MouseButton.Other n

/-- Model of `impl From<ElementState> for KeyState` (source lines 627-634). -/
def elementStateIntoKeyState : ElementState → KeyState
  | ElementState.Pressed => KeyState.Pressed
  | ElementState.Released => KeyState.Released

/-- Model of `impl From<ElementState> for MouseButtonState` (source lines 636-643). -/
def elementStateIntoMouseButtonState : ElementState → MouseButtonState
  | ElementState.Pressed => MouseButtonState.Pressed
  | ElementState.Released => MouseButtonState.Released

/-- Model of `backend::input::SeatCapabilities` (modelled from its construction in
`init_from_builder_with_gl_attr`). -/
structure SeatCapabilities where
  pointer : Bool
  keyboard : Bool
  touch : Bool
deriving DecidableEq

/-- Model of `backend::input::Seat` (modelled from its use: `Seat::new(id, capabilities)`). -/
structure Seat where
  id : Nat
  capabilities : SeatCapabilities
deriving DecidableEq

/-- Model of `Seat::new` via the `SeatInternal` trait. -/
def Seat.new (id : Nat) (capabilities : SeatCapabilities) : Seat :=
  { id := id, capabilities := capabilities }

/-- Model of `backend::input::TouchSlot` (modelled from its use: `TouchSlot::new(id)` on
the native contact id). -/
structure TouchSlot where
  id : Nat
deriving DecidableEq

/-- Model of `TouchSlot::new` via the `TouchSlotInternal` trait. -/
def TouchSlot.new (id : Nat) : TouchSlot :=
  { id := id }

/-- winit `MouseScrollDelta`; the `f32` components are modelled as exact
rationals. -/
inductive MouseScrollDelta
  | LineDelta (x y : Rat)
  | PixelDelta (x y : Rat)
deriving DecidableEq

/-- winit `TouchPhase`. -/
inductive TouchPhase
  | Started
  | Moved
  | Ended
  | Cancelled
deriving DecidableEq

/-- winit `Touch`: phase, `(f64, f64)` location (modelled as rationals) and
`u64` contact id. -/
structure Touch where
  phase : TouchPhase
  location : Rat × Rat
  id : Nat
deriving DecidableEq

/-- The subset of winit `WindowEvent` the dispatch loop matches on; `Other`
stands for every native event caught by the final `_ => {}` arm. -/
inductive WindowEvent
  | Resized (x y : Nat)
  | KeyboardInput (state : ElementState) (key_code : Nat)
  | MouseMoved (x y : Int)
  | MouseWheel (delta : MouseScrollDelta)
  | MouseInput (state : ElementState) (button : WinitMouseButton)
  | Touch (t : Touch)
  | Closed
  | Other
deriving DecidableEq

/-- The shared winit `Window`, reduced to the only query the input backend
reads: `get_inner_size_points()` (an `Option<(u32, u32)>`). -/
structure Window where
  innerSizePoints : Option (Nat × Nat)
deriving DecidableEq

/-- Model of `Window::get_inner_size_points`. -/
def Window.get_inner_size_points (w : Window) : Option (Nat × Nat) :=
  w.innerSizePoints

/-- Model of `Window::set_inner_size`, modelled with a hidpi factor of 1 so the new
size is also the size in points. -/
def Window.set_inner_size (_w : Window) (x y : Nat) : Window :=
  { innerSizePoints := some (x, y) }

/-- Rust `as u32` applied to an `i32` value: two's-complement reinterpretation. -/
def u32cast (v : Int) : Nat :=
  (v % (2 ^ 32 : Int)).toNat

/-- Rust `as i32` applied to a `u32` value: two's-complement reinterpretation. -/
def i32ofU32 (n : Nat) : Int :=
  if n < 2 ^ 31 then (n : Int) else (n : Int) - 2 ^ 32

/-- Truncation toward zero of a rational, the rounding Rust float-to-integer
casts perform for in-range values. -/
def ratTrunc (r : Rat) : Int :=
  if 0 ≤ r then r.floor else r.ceil

/-- Rust `as i32` applied to an `f64` value (saturating truncation). -/
def f64toI32 (r : Rat) : Int :=
  max (-(2 ^ 31)) (min (2 ^ 31 - 1) (ratTrunc r))

/-- Rust `as u32` applied to an `f64` value (saturating truncation). -/
def f64toU32 (r : Rat) : Nat :=
  (min ((2 ^ 32 : Int) - 1) (max 0 (ratTrunc r))).toNat

/-- Model of `WinitKeyboardInputEvent` (source lines 183-188). -/
structure WinitKeyboardInputEvent where
  time : Nat
  key : Nat
  count : Nat
  state : ElementState
deriving DecidableEq

/-- Model of `KeyboardKeyEvent::key_code` for `WinitKeyboardInputEvent`: the stored
`u8` widened to `u32` (value-preserving). -/
def WinitKeyboardInputEvent.key_code (e : WinitKeyboardInputEvent) : Nat :=
  e.key

/-- Model of `KeyboardKeyEvent::state` for `WinitKeyboardInputEvent` (named `keyState`
here because `state` is the field). -/
def WinitKeyboardInputEvent.keyState (e : WinitKeyboardInputEvent) : KeyState :=
  elementStateIntoKeyState e.state

/-- Model of `WinitMouseMovedEvent` (source lines 212-217); `x`, `y` are the raw `i32`
coordinates. -/
structure WinitMouseMovedEvent where
  window : Window
  time : Nat
  x : Int
  y : Int
deriving DecidableEq

/-- Model of `PointerMotionAbsoluteEvent::x_transformed` for `WinitMouseMovedEvent`
(source lines 234-238):
`cmp::min(self.x * width as i32 / self.window.get_inner_size_points().unwrap_or((width, 0)).0 as i32, 0) as u32`. -/
def WinitMouseMovedEvent.x_transformed (e : WinitMouseMovedEvent) (width : Nat) : Nat :=
  u32cast (min ((e.x * i32ofU32 width).tdiv
    (i32ofU32 (e.window.get_inner_size_points.getD (width, 0)).1)) 0)

/-- Model of `PointerMotionAbsoluteEvent::y_transformed` for `WinitMouseMovedEvent`
(source lines 240-244). -/
def WinitMouseMovedEvent.y_transformed (e : WinitMouseMovedEvent) (height : Nat) : Nat :=
  u32cast (min ((e.y * i32ofU32 height).tdiv
    (i32ofU32 (e.window.get_inner_size_points.getD (0, height)).2)) 0)

/-- Model of `WinitMouseWheelEvent` (source lines 249-253). -/
structure WinitMouseWheelEvent where
  axis : Axis
  time : Nat
  delta : MouseScrollDelta
deriving DecidableEq

/-- Model of `PointerAxisEvent::source` for `WinitMouseWheelEvent` (source lines 266-271). -/
def WinitMouseWheelEvent.source (e : WinitMouseWheelEvent) : AxisSource :=
  match e.delta with
  | MouseScrollDelta.LineDelta _ _ => AxisSource.Wheel
  | MouseScrollDelta.PixelDelta _ _ => AxisSource.Continuous

/-- Model of `PointerAxisEvent::amount` for `WinitMouseWheelEvent` (source lines 273-280). -/
def WinitMouseWheelEvent.amount (e : WinitMouseWheelEvent) : Rat :=
  match e.axis, e.delta with
  | Axis.Horizontal, MouseScrollDelta.LineDelta x _ => x
  | Axis.Horizontal, MouseScrollDelta.PixelDelta x _ => x
  | Axis.Vertical, MouseScrollDelta.LineDelta _ y => y
  | Axis.Vertical, MouseScrollDelta.PixelDelta _ y => y

/-- Model of `WinitMouseInputEvent` (source lines 285-289). -/
structure WinitMouseInputEvent where
  time : Nat
  button : WinitMouseButton
  state : ElementState
deriving DecidableEq

/-- Model of `WinitTouchStartedEvent` (source lines 309-314). -/
structure WinitTouchStartedEvent where
  window : Window
  time : Nat
  location : Rat × Rat
  id : Nat
deriving DecidableEq

/-- Model of `TouchDownEvent::slot` for `WinitTouchStartedEvent`. -/
def WinitTouchStartedEvent.slot (e : WinitTouchStartedEvent) : Option TouchSlot :=
  some (TouchSlot.new e.id)

/-- Model of `TouchDownEvent::x_transformed` for `WinitTouchStartedEvent` (source
lines 335-339):
`cmp::min(self.location.0 as i32 * width as i32 / S as i32, 0) as u32`. -/
def WinitTouchStartedEvent.x_transformed (e : WinitTouchStartedEvent) (width : Nat) : Nat :=
  u32cast (min ((f64toI32 e.location.1 * i32ofU32 width).tdiv
    (i32ofU32 (e.window.get_inner_size_points.getD (width, 0)).1)) 0)

/-- Model of `TouchDownEvent::y_transformed` for `WinitTouchStartedEvent` (source
lines 341-345). -/
def WinitTouchStartedEvent.y_transformed (e : WinitTouchStartedEvent) (height : Nat) : Nat :=
  u32cast (min ((f64toI32 e.location.2 * i32ofU32 height).tdiv
    (i32ofU32 (e.window.get_inner_size_points.getD (0, height)).2)) 0)

/-- Model of `WinitTouchMovedEvent` (source lines 350-355). -/
structure WinitTouchMovedEvent where
  window : Window
  time : Nat
  location : Rat × Rat
  id : Nat
deriving DecidableEq

/-- Model of `TouchMotionEvent::slot` for `WinitTouchMovedEvent`. -/
def WinitTouchMovedEvent.slot (e : WinitTouchMovedEvent) : Option TouchSlot :=
  some (TouchSlot.new e.id)

/-- Model of `TouchMotionEvent::x_transformed` for `WinitTouchMovedEvent` (source
lines 376-378): `self.location.0 as u32 * width / S`, computed in wrapping
`u32` arithmetic with no clamp. -/
def WinitTouchMovedEvent.x_transformed (e : WinitTouchMovedEvent) (width : Nat) : Nat :=
  ((f64toU32 e.location.1 * width) % 2 ^ 32) /
    (e.window.get_inner_size_points.getD (width, 0)).1

/-- Model of `TouchMotionEvent::y_transformed` for `WinitTouchMovedEvent` (source
lines 380-382). -/
def WinitTouchMovedEvent.y_transformed (e : WinitTouchMovedEvent) (height : Nat) : Nat :=
  ((f64toU32 e.location.2 * height) % 2 ^ 32) /
    (e.window.get_inner_size_points.getD (0, height)).2

/-- Model of `WinitTouchEndedEvent` (source lines 387-390). -/
structure WinitTouchEndedEvent where
  time : Nat
  id : Nat
deriving DecidableEq

/-- Model of `TouchUpEvent::slot` for `WinitTouchEndedEvent`. -/
def WinitTouchEndedEvent.slot (e : WinitTouchEndedEvent) : Option TouchSlot :=
  some (TouchSlot.new e.id)

/-- Model of `WinitTouchCancelledEvent` (source lines 406-409). -/
structure WinitTouchCancelledEvent where
  time : Nat
  id : Nat
deriving DecidableEq

/-- Model of `TouchCancelEvent::slot` for `WinitTouchCancelledEvent`. -/
def WinitTouchCancelledEvent.slot (e : WinitTouchCancelledEvent) : Option TouchSlot :=
  some (TouchSlot.new e.id)

/-- Model of `WinitInputError` (source lines 161-166). -/
inductive WinitInputError
  | WindowClosed
deriving DecidableEq

/-- One handler callback invocation, recording which `InputHandler` method the
dispatch loop called and with which normalized event. -/
inductive Delivery
  | keyboardKey (e : WinitKeyboardInputEvent)
  | pointerMoveAbsolute (e : WinitMouseMovedEvent)
  | pointerAxis (e : WinitMouseWheelEvent)
  | pointerButton (e : WinitMouseInputEvent)
  | touchDown (e : WinitTouchStartedEvent)
  | touchMotion (e : WinitTouchMovedEvent)
  | touchUp (e : WinitTouchEndedEvent)
  | touchCancel (e : WinitTouchCancelledEvent)
deriving DecidableEq

/-- Whether a delivery is a touch-motion callback. -/
def Delivery.isTouchMotion : Delivery → Bool
  | Delivery.touchMotion _ => true
  | _ => false

/-- The `count` carried by a keyboard-key delivery, `none` for other deliveries. -/
def Delivery.keyCount : Delivery → Option Nat
  | Delivery.keyboardKey e => some e.count
  | _ => none

/-- The timestamp carried by the normalized event of a delivery. -/
def Delivery.time : Delivery → Nat
  | Delivery.keyboardKey e => e.time
  | Delivery.pointerMoveAbsolute e => e.time
  | Delivery.pointerAxis e => e.time
  | Delivery.pointerButton e => e.time
  | Delivery.touchDown e => e.time
  | Delivery.touchMotion e => e.time
  | Delivery.touchUp e => e.time
  | Delivery.touchCancel e => e.time

/-- The key-counter update the keyboard arm performs (source lines 497-502):
a wrapping `u32` increment on press, `checked_sub(1).unwrap_or(0)` on release. -/
def keyUpd : ElementState → Nat → Nat
  | ElementState.Pressed, c => (c + 1) % 2 ^ 32
  | ElementState.Released, c => c - 1

/-- The mutable state the dispatch closure touches: the shared window, the two
`u32` counters and the per-call `closed` flag. -/
structure DispatchState where
  window : Window
  time_counter : Nat
  key_counter : Nat
  closed : Bool
deriving DecidableEq

/-- One iteration of the closure passed to `poll_events` (source lines
487-605).  The whole body, including close tracking and the trailing
`*time_counter += 1`, sits inside `if let Some(ref mut handler) = handler`,
so nothing at all happens when no handler is registered. -/
def dispatchStep (handlerPresent : Bool) (st : DispatchState) (ev : WindowEvent) :
    DispatchState × List Delivery :=
  if handlerPresent then
    let bump := fun (s : DispatchState) =>
      { s with time_counter := (s.time_counter + 1) % 2 ^ 32 }
    match ev with
    | WindowEvent.Resized x y =>
        (bump { st with window := st.window.set_inner_size x y }, [])
    | WindowEvent.KeyboardInput state key_code =>
        let k := keyUpd state st.key_counter
        (bump { st with key_counter := k },
         [Delivery.keyboardKey
            { time := st.time_counter, key := key_code, count := k, state := state }])
    | WindowEvent.MouseMoved x y =>
        (bump st,
         [Delivery.pointerMoveAbsolute
            { window := st.window, time := st.time_counter, x := x, y := y }])
    | WindowEvent.MouseWheel delta =>
        let event : WinitMouseWheelEvent :=
          { axis := Axis.Horizontal, time := st.time_counter, delta := delta }
        let xy : Rat × Rat := match delta with
          | MouseScrollDelta.LineDelta x y => (x, y)
          | MouseScrollDelta.PixelDelta x y => (x, y)
        (bump st,
         (if xy.1 ≠ 0 then [Delivery.pointerAxis event] else []) ++
           (if xy.2 ≠ 0 then [Delivery.pointerAxis event] else []))
    | WindowEvent.MouseInput state button =>
        (bump st,
         [Delivery.pointerButton
            { time := st.time_counter, button := button, state := state }])
    | WindowEvent.Touch ⟨TouchPhase.Started, loc, id⟩ =>
        (bump st,
         [Delivery.touchDown
            { window := st.window, time := st.time_counter, location := loc, id := id }])
    | WindowEvent.Touch ⟨TouchPhase.Moved, loc, id⟩ =>
        (bump st,
         [Delivery.touchMotion
            { window := st.window, time := st.time_counter, location := loc, id := id }])
    | WindowEvent.Touch ⟨TouchPhase.Ended, loc, id⟩ =>
        (bump st,
         [Delivery.touchMotion
            { window := st.window, time := st.time_counter, location := loc, id := id },
          Delivery.touchUp { time := st.time_counter, id := id }])
    | WindowEvent.Touch ⟨TouchPhase.Cancelled, _, id⟩ =>
        (bump st,
         [Delivery.touchCancel { time := st.time_counter, id := id }])
    | WindowEvent.Closed =>
        (bump { st with closed := true }, [])
    | WindowEvent.Other =>
        (bump st, [])
  else (st, [])

/-- Draining the queued batch: the fold of `dispatchStep` over the events in
arrival order, collecting the handler callbacks in order. -/
def dispatchBatch (handlerPresent : Bool) (st : DispatchState) :
    List WindowEvent → DispatchState × List Delivery
  | [] => (st, [])
  | e :: rest =>
      let p := dispatchStep handlerPresent st e
      let q := dispatchBatch handlerPresent p.1 rest
      (q.1, p.2 ++ q.2)

/-- Model of `WinitInputBackend` (source lines 33-42), with the handler slot modelled
as an optional handler identifier. -/
structure WinitInputBackend where
  window : Window
  time_counter : Nat
  key_counter : Nat
  seat : Seat
  handler : Option Nat
deriving DecidableEq

/-- Model of `WinitInputBackend::dispatch_new_events` (source lines 474-613), applied
to the batch of native events queued at call time.  Returns the updated
backend, the handler callbacks made during the drain, and the result. -/
def WinitInputBackend.dispatch_new_events (b : WinitInputBackend)
    (queued : List WindowEvent) :
    WinitInputBackend × List Delivery × Except WinitInputError Unit :=
  let r := dispatchBatch b.handler.isSome
    ({ window := b.window, time_counter := b.time_counter,
       key_counter := b.key_counter, closed := false }) queued
  ({ b with
      window := r.1.window,
      time_counter := r.1.time_counter,
      key_counter := r.1.key_counter },
   r.2,
   if r.1.closed then Except.error WinitInputError.WindowClosed else Except.ok ())

/-- The input half of `init_from_builder_with_gl_attr` (source lines 102-116):
the freshly constructed `WinitInputBackend`. -/
def initialInput (window : Window) : WinitInputBackend :=
  { window := window, time_counter := 0, key_counter := 0,
    seat := Seat.new 0 { pointer := true, keyboard := true, touch := true },
    handler := none }

/-- A seat lifecycle notification delivered to a handler, tagged with the
identifier of the handler that received it. -/
inductive SeatNote
  | created (hid : Nat)
  | destroyed (hid : Nat)
deriving DecidableEq

/-- Whether a note is a seat-created notification. -/
def SeatNote.isCreated : SeatNote → Bool
  | SeatNote.created _ => true
  | _ => false

/-- Whether a note is a seat-destroyed notification. -/
def SeatNote.isDestroyed : SeatNote → Bool
  | SeatNote.destroyed _ => true
  | _ => false

/-- Model of `InputBackend::clear_handler` for `WinitInputBackend` (source lines
452-456): take the handler, if any, and send it seat-destroyed. -/
def WinitInputBackend.clear_handler (b : WinitInputBackend) :
    WinitInputBackend × List SeatNote :=
  match b.handler with
  | some a => ({ b with handler := none }, [SeatNote.destroyed a])
  | none => (b, [])

/-- Model of `InputBackend::set_handler` for `WinitInputBackend` (source lines
438-444): clear any existing handler first, then announce seat-created to the
new handler and install it. -/
def WinitInputBackend.set_handler (b : WinitInputBackend) (hid : Nat) :
    WinitInputBackend × List SeatNote :=
  let p := if b.handler.isSome then b.clear_handler else (b, [])
  ({ p.1 with handler := some hid }, p.2 ++ [SeatNote.created hid])

/-- A host-driven handler-slot operation. -/
inductive HandlerOp
  | set (hid : Nat)
  | clear
deriving DecidableEq

/-- Apply one handler-slot operation. -/
def applyOp (b : WinitInputBackend) : HandlerOp → WinitInputBackend × List SeatNote
  | HandlerOp.set hid => b.set_handler hid
  | HandlerOp.clear => b.clear_handler

/-- Run a sequence of handler-slot operations, concatenating the seat
lifecycle notifications they produce. -/
def runOps (b : WinitInputBackend) : List HandlerOp → WinitInputBackend × List SeatNote
  | [] => (b, [])
  | op :: rest =>
      let p := applyOp b op
      let q := runOps p.1 rest
      (q.1, p.2 ++ q.2)

/-- Trace validity for seat lifecycle notifications: scanning the trace with
the current installed-state, a `created` note is legal only when no handler is
installed and a `destroyed` note only when one is; the scan returns the final
installed-state, or `none` when the trace is not well formed. -/
def okRun : Bool → List SeatNote → Option Bool
  | b, [] => some b
  | false, SeatNote.created _ :: l => okRun true l
  | true, SeatNote.destroyed _ :: l => okRun false l
  | _, _ => none

/-- A batch consisting only of keyboard events, given as (state, key code)
pairs. -/
def keyEvs (ks : List (ElementState × Nat)) : List WindowEvent :=
  ks.map fun p => WindowEvent.KeyboardInput p.1 p.2

/-- Number of key presses in a keyboard batch. -/
def pressN (ks : List (ElementState × Nat)) : Nat :=
  ks.countP fun p => p.1 == ElementState.Pressed

/-- Number of key releases in a keyboard batch. -/
def relN (ks : List (ElementState × Nat)) : Nat :=
  ks.countP fun p => p.1 == ElementState.Released

/-- Example keyboard batch: release of key 5 followed by press of key 5. -/
def exRP : List (ElementState × Nat) :=
  [(ElementState.Released, 5), (ElementState.Pressed, 5)]

/-- Example keyboard batch: press A, press B, release A (the spec's worked
example, with key codes 30 and 48). -/
def exPPR : List (ElementState × Nat) :=
  [(ElementState.Pressed, 30), (ElementState.Pressed, 48), (ElementState.Released, 30)]

/-- An example window with a live inner size of 800×600 points. -/
def exWindow : Window :=
  { innerSizePoints := some (800, 600) }

/-- An example window with a live inner size of 100×100 points. -/
def exWindow100 : Window :=
  { innerSizePoints := some (100, 100) }

/-- The dispatch state of a freshly constructed adapter on `exWindow`. -/
def exState : DispatchState :=
  { window := exWindow, time_counter := 0, key_counter := 0, closed := false }

/-- A freshly constructed input backend with a handler registered (handler id 0). -/
def exBackendH : WinitInputBackend :=
  { initialInput exWindow with handler := some 0 }

/-- An example pointer absolute-motion event at raw position (10, 10) on a
100×100 window. -/
def exMouseMoved : WinitMouseMovedEvent :=
  { window := exWindow100, time := 0, x := 10, y := 10 }

/-- An example touch-motion event at location (10, 10) on a 100×100 window. -/
def exTouchMoved : WinitTouchMovedEvent :=
  { window := exWindow100, time := 0, location := (10, 10), id := 7 }

/-- Claim C1: a call whose drained batch contains a close notification should
return the window-closed error.  Evaluated at the failing input — a call with
no handler registered and queued batch `[Closed]` — the code returns success,
because the close notification is only tracked inside the handler guard.  With
a handler registered the claimed behavior does hold: the close notification
sets the flag, the drain continues (the later key event is still delivered),
and the error is reported after the full batch; a batch without a close
notification returns success. -/
theorem C1_close_error_evaluation :
    ((initialInput exWindow).dispatch_new_events [WindowEvent.Closed]).2.2 = Except.ok ()
    ∧ (exBackendH.dispatch_new_events
        [WindowEvent.Closed, WindowEvent.KeyboardInput ElementState.Pressed 3]).2.2
        = Except.error WinitInputError.WindowClosed
    ∧ (exBackendH.dispatch_new_events
        [WindowEvent.Closed, WindowEvent.KeyboardInput ElementState.Pressed 3]).2.1
        = [Delivery.keyboardKey { time := 1, key := 3, count := 1, state := ElementState.Pressed }]
    ∧ (exBackendH.dispatch_new_events
        [WindowEvent.Other, WindowEvent.KeyboardInput ElementState.Pressed 3]).2.2
        = Except.ok () := by
  refine ⟨rfl, rfl, rfl, rfl⟩

/-- Claim C2: a call with no handler registered should still advance the time
counter per drained event and still track a close notification.  Evaluated at
the failing input — a fresh adapter with no handler and queued batch
`[Other, Closed]` — the code leaves the time counter at 0 and returns success,
because the entire closure body is skipped when no handler is installed. -/
theorem C2_no_handler_evaluation :
    ((initialInput exWindow).dispatch_new_events [WindowEvent.Other, WindowEvent.Closed]).1.time_counter = 0
    ∧ ((initialInput exWindow).dispatch_new_events [WindowEvent.Other, WindowEvent.Closed]).2.1 = []
    ∧ ((initialInput exWindow).dispatch_new_events [WindowEvent.Other, WindowEvent.Closed]).2.2
        = Except.ok () := by
  refine ⟨rfl, rfl, rfl⟩

/-- Claim C3: a wheel event with both deltas non-zero should yield one
notification whose axis is Horizontal carrying the horizontal delta and one
whose axis is Vertical carrying the vertical delta.  Evaluated at the failing
input `LineDelta(1, 2)` with a handler registered: the code builds a single
event with `axis = Horizontal` and delivers that same event twice, so both
notifications report axis Horizontal and amount 1 (the horizontal delta); the
vertical delta 2 is never carried by any delivered notification.  A zero
horizontal delta still yields a notification whose axis reads Horizontal (from
the non-zero vertical component).  The source classification itself is as
claimed (Wheel for line deltas). -/
theorem C3_wheel_axis_evaluation :
    (dispatchStep true exState (WindowEvent.MouseWheel (MouseScrollDelta.LineDelta 1 2))).2
      = [Delivery.pointerAxis { axis := Axis.Horizontal, time := 0, delta := MouseScrollDelta.LineDelta 1 2 },
         Delivery.pointerAxis { axis := Axis.Horizontal, time := 0, delta := MouseScrollDelta.LineDelta 1 2 }]
    ∧ WinitMouseWheelEvent.amount
        { axis := Axis.Horizontal, time := 0, delta := MouseScrollDelta.LineDelta 1 2 } = 1
    ∧ WinitMouseWheelEvent.source
        { axis := Axis.Horizontal, time := 0, delta := MouseScrollDelta.LineDelta 1 2 } = AxisSource.Wheel
    ∧ WinitMouseWheelEvent.amount
        { axis := Axis.Vertical, time := 0, delta := MouseScrollDelta.LineDelta 1 2 } = 2
    ∧ (dispatchStep true exState (WindowEvent.MouseWheel (MouseScrollDelta.LineDelta 0 2))).2
      = [Delivery.pointerAxis { axis := Axis.Horizontal, time := 0, delta := MouseScrollDelta.LineDelta 0 2 }] := by
  refine ⟨by decide, rfl, rfl, rfl, by decide⟩

/-- Claim C6: the transformed coordinate should be `raw * D / S`.  Evaluated
at the failing input — a pointer absolute-motion event with raw x = 10 on a
window of logical width 100, destination width D = 200 — the claimed value is
10 * 200 / 100 = 20, but the code clamps the scaled value with
`cmp::min(_, 0)` and returns 0. -/
theorem C6_transform_formula_evaluation :
    exMouseMoved.x_transformed 200 = 0
    ∧ ((10 : Int) * i32ofU32 200).tdiv
        (i32ofU32 (exMouseMoved.window.get_inner_size_points.getD (200, 0)).1) = 20 := by
  refine ⟨by decide, by decide⟩

/-- Claim C7: for every native touch-end event drained with a handler
registered, exactly one touch-motion event at the final location is delivered,
immediately followed by exactly one touch-up event, and both carry the slot
derived from the originating contact id. -/
theorem C7_touch_end_motion_then_up (st : DispatchState) (loc : Rat × Rat) (id : Nat) :
    (dispatchStep true st (WindowEvent.Touch { phase := TouchPhase.Ended, location := loc, id := id })).2
      = [Delivery.touchMotion { window := st.window, time := st.time_counter, location := loc, id := id },
         Delivery.touchUp { time := st.time_counter, id := id }]
    ∧ WinitTouchMovedEvent.slot
        { window := st.window, time := st.time_counter, location := loc, id := id }
        = some (TouchSlot.new id)
    ∧ WinitTouchEndedEvent.slot { time := st.time_counter, id := id } = some (TouchSlot.new id) := by
  refine ⟨rfl, rfl, rfl⟩

/-- Claim C9: for every native touch-cancel event drained with a handler
registered, exactly one touch-cancel event carrying that contact's slot is
delivered, and no touch-motion event is synthesized for it. -/
theorem C9_touch_cancel_no_motion (st : DispatchState) (loc : Rat × Rat) (id : Nat) :
    (dispatchStep true st (WindowEvent.Touch { phase := TouchPhase.Cancelled, location := loc, id := id })).2
      = [Delivery.touchCancel { time := st.time_counter, id := id }]
    ∧ WinitTouchCancelledEvent.slot { time := st.time_counter, id := id } = some (TouchSlot.new id)
    ∧ ((dispatchStep true st (WindowEvent.Touch
          { phase := TouchPhase.Cancelled, location := loc, id := id })).2.all
        fun d => !d.isTouchMotion) = true := by
  refine ⟨rfl, rfl, rfl⟩

/-- With a handler registered, every drained native event bumps the time
counter by one (wrapping `u32` addition). -/
theorem dispatchStep_time (st : DispatchState) (e : WindowEvent) :
    (dispatchStep true st e).1.time_counter = (st.time_counter + 1) % 2 ^ 32 := by
  cases e with
  | Resized x y => rfl
  | KeyboardInput s k => cases s <;> rfl
  | MouseMoved x y => rfl
  | MouseWheel dl => cases dl <;> rfl
  | MouseInput s b => rfl
  | Touch t =>
      obtain ⟨ph, l, i⟩ := t
      cases ph <;> rfl
  | Closed => rfl
  | Other => rfl

/-- With a handler registered, the time counter after draining a batch is the
starting value plus the batch length (wrapping `u32` arithmetic). -/
theorem dispatchBatch_time (evs : List WindowEvent) : ∀ st : DispatchState,
    st.time_counter < 2 ^ 32 →
    (dispatchBatch true st evs).1.time_counter = (st.time_counter + evs.length) % 2 ^ 32 := by
  induction evs with
  | nil =>
      intro st h
      simpa using (Nat.mod_eq_of_lt h).symm
  | cons e rest ih =>
      intro st h
      show (dispatchBatch true (dispatchStep true st e).1 rest).1.time_counter = _
      rw [ih _ (by rw [dispatchStep_time]; exact Nat.mod_lt _ (by norm_num))]
      rw [dispatchStep_time, Nat.mod_add_mod, List.length_cons]
      congr 1
      omega

/-- Every delivery produced while processing one native event carries the time
counter value from before that event's trailing increment. -/
theorem dispatchStep_delivery_time (st : DispatchState) (e : WindowEvent) (d : Delivery)
    (hd : d ∈ (dispatchStep true st e).2) : d.time = st.time_counter := by
  cases e with
  | Resized x y => simp [dispatchStep] at hd
  | KeyboardInput s k =>
      simp only [dispatchStep, if_true, List.mem_singleton] at hd
      subst hd
      rfl
  | MouseMoved x y =>
      simp only [dispatchStep, if_true, List.mem_singleton] at hd
      subst hd
      rfl
  | MouseWheel dl =>
      obtain ⟨x, y⟩ | ⟨x, y⟩ := dl <;>
        · simp only [dispatchStep, if_true] at hd
          rcases List.mem_append.1 hd with h1 | h1 <;>
            · split at h1 <;> simp at h1
              subst h1
              rfl
  | MouseInput s b =>
      simp only [dispatchStep, if_true, List.mem_singleton] at hd
      subst hd
      rfl
  | Touch t =>
      obtain ⟨ph, l, i⟩ := t
      cases ph with
      | Started =>
          simp only [dispatchStep, if_true, List.mem_singleton] at hd
          subst hd
          rfl
      | Moved =>
          simp only [dispatchStep, if_true, List.mem_singleton] at hd
          subst hd
          rfl
      | Ended =>
          simp only [dispatchStep, if_true, List.mem_cons, List.mem_singleton] at hd
          rcases hd with hd | hd
          · subst hd; rfl
          · rcases hd with hd | hd
            · subst hd; rfl
            · simp at hd
      | Cancelled =>
          simp only [dispatchStep, if_true, List.mem_singleton] at hd
          subst hd
          rfl
  | Closed => simp [dispatchStep] at hd
  | Other => simp [dispatchStep] at hd

/-- Claim C5: the time counter starts at 0 at construction; with a handler
registered every drained native event (recognized or not) increments it by
exactly one and every delivered event is stamped with the pre-increment
counter value.  The claim fails in one corner the conjunction also records:
when no handler is registered the dispatch closure does nothing at all, so
drained events do not advance the counter. -/
theorem C5_time_counter_behavior :
    (∀ w : Window, (initialInput w).time_counter = 0)
    ∧ (∀ (st : DispatchState) (e : WindowEvent),
        (dispatchStep true st e).1.time_counter = (st.time_counter + 1) % 2 ^ 32)
    ∧ (∀ (st : DispatchState) (evs : List WindowEvent), st.time_counter < 2 ^ 32 →
        (dispatchBatch true st evs).1.time_counter = (st.time_counter + evs.length) % 2 ^ 32)
    ∧ (∀ (st : DispatchState) (e : WindowEvent) (d : Delivery),
        d ∈ (dispatchStep true st e).2 → d.time = st.time_counter)
    ∧ (∀ (st : DispatchState) (e : WindowEvent), dispatchStep false st e = (st, [])) :=
  ⟨fun _ => rfl, dispatchStep_time, fun st evs h => dispatchBatch_time evs st h,
   dispatchStep_delivery_time, fun _ _ => rfl⟩

/-- Witness for C5 at a concrete input: one drained event advances the counter
of a fresh adapter, and a delivery is stamped with the pre-increment value. -/
theorem C5_time_counter_behavior_witness :
    (dispatchBatch true exState [WindowEvent.Other]).1.time_counter
      = (exState.time_counter + 1) % 2 ^ 32
    ∧ (Delivery.touchUp { time := 0, id := 7 }).time = exState.time_counter :=
  ⟨C5_time_counter_behavior.2.2.1 exState [WindowEvent.Other] (by decide),
   C5_time_counter_behavior.2.2.2.1 exState
     (WindowEvent.Touch { phase := TouchPhase.Ended, location := (1, 1), id := 7 })
     (Delivery.touchUp { time := 0, id := 7 }) (by decide)⟩

/-- Casting the zero-clamped minimum of a positive value to `u32` yields 0. -/
theorem u32cast_min_zero (v : Int) (h : 0 < v) : u32cast (min v 0) = 0 := by
  rw [min_eq_right h.le]
  decide

/-- Claim C10: pointer absolute-motion and touch-down transforms take
`min(raw * D / S, 0)` before the `u32` cast, so every positive scaled
coordinate is forced to 0, while the touch-motion transforms divide without
any clamp toward 0. -/
theorem C10_transform_clamp_inconsistency :
    (∀ (e : WinitMouseMovedEvent) (width : Nat),
        0 < (e.x * i32ofU32 width).tdiv
            (i32ofU32 (e.window.get_inner_size_points.getD (width, 0)).1) →
        e.x_transformed width = 0)
    ∧ (∀ (e : WinitMouseMovedEvent) (height : Nat),
        0 < (e.y * i32ofU32 height).tdiv
            (i32ofU32 (e.window.get_inner_size_points.getD (0, height)).2) →
        e.y_transformed height = 0)
    ∧ (∀ (e : WinitTouchStartedEvent) (width : Nat),
        0 < (f64toI32 e.location.1 * i32ofU32 width).tdiv
            (i32ofU32 (e.window.get_inner_size_points.getD (width, 0)).1) →
        e.x_transformed width = 0)
    ∧ (∀ (e : WinitTouchStartedEvent) (height : Nat),
        0 < (f64toI32 e.location.2 * i32ofU32 height).tdiv
            (i32ofU32 (e.window.get_inner_size_points.getD (0, height)).2) →
        e.y_transformed height = 0)
    ∧ (∀ (e : WinitTouchMovedEvent) (width : Nat),
        f64toU32 e.location.1 * width < 2 ^ 32 →
        e.x_transformed width
          = f64toU32 e.location.1 * width / (e.window.get_inner_size_points.getD (width, 0)).1)
    ∧ (∀ (e : WinitTouchMovedEvent) (height : Nat),
        f64toU32 e.location.2 * height < 2 ^ 32 →
        e.y_transformed height
          = f64toU32 e.location.2 * height / (e.window.get_inner_size_points.getD (0, height)).2) := by
  refine ⟨fun e w h => u32cast_min_zero _ h, fun e ht hh => u32cast_min_zero _ hh,
          fun e w h => u32cast_min_zero _ h, fun e ht hh => u32cast_min_zero _ hh,
          fun e w h => ?_, fun e ht hh => ?_⟩
  · show (_ % 2 ^ 32) / _ = _
    rw [Nat.mod_eq_of_lt h]
  · show (_ % 2 ^ 32) / _ = _
    rw [Nat.mod_eq_of_lt hh]

/-- Witness for C10 at a concrete input: the same raw data (coordinate 10,
window size 100, destination 200) yields 0 through the pointer transform but
the unclamped quotient through the touch-motion transform. -/
theorem C10_transform_clamp_inconsistency_witness :
    exMouseMoved.x_transformed 200 = 0
    ∧ exTouchMoved.x_transformed 200
        = f64toU32 exTouchMoved.location.1 * 200
            / (exTouchMoved.window.get_inner_size_points.getD (200, 0)).1 :=
  ⟨C10_transform_clamp_inconsistency.1 exMouseMoved 200 (by decide),
   C10_transform_clamp_inconsistency.2.2.2.2.1 exTouchMoved 200 (by decide)⟩

/-- Validity scanning distributes over trace concatenation. -/
theorem okRun_append (l₁ l₂ : List SeatNote) : ∀ b : Bool,
    okRun b (l₁ ++ l₂) = (okRun b l₁).bind fun b' => okRun b' l₂ := by
  induction l₁ with
  | nil => intro b; simp [okRun]
  | cons a t ih =>
      intro b
      cases a <;> cases b <;> simp [okRun, ih]

/-- Each handler-slot operation produces a well-formed notification segment
taking the installed-state from before the operation to the one after it. -/
theorem applyOp_okRun (b : WinitInputBackend) (op : HandlerOp) :
    okRun b.handler.isSome (applyOp b op).2 = some (applyOp b op).1.handler.isSome := by
  cases op with
  | set hid =>
      cases hb : b.handler <;>
        simp [applyOp, WinitInputBackend.set_handler, WinitInputBackend.clear_handler, hb, okRun]
  | clear =>
      cases hb : b.handler <;>
        simp [applyOp, WinitInputBackend.clear_handler, hb, okRun]

/-- Any sequence of handler-slot operations produces a well-formed seat
notification trace. -/
theorem runOps_okRun (ops : List HandlerOp) : ∀ b : WinitInputBackend,
    okRun b.handler.isSome (runOps b ops).2 = some (runOps b ops).1.handler.isSome := by
  induction ops with
  | nil => intro b; simp [runOps, okRun]
  | cons op rest ih =>
      intro b
      show okRun _ ((applyOp b op).2 ++ (runOps (applyOp b op).1 rest).2) = _
      rw [okRun_append, applyOp_okRun]
      show ((okRun (applyOp b op).1.handler.isSome (runOps (applyOp b op).1 rest).2)) = _
      rw [ih]
      rfl

/-- In a well-formed trace starting with a handler installed, any `created`
note is preceded by a `destroyed` note. -/
theorem okRun_true_created_preceded (l : List SeatNote)
    (h : (okRun true l).isSome = true) (m : Nat) (hm : m < l.length)
    (hc : (l.get ⟨m, hm⟩).isCreated = true) :
    ∃ k, ∃ hk : k < l.length, k < m ∧ (l.get ⟨k, hk⟩).isDestroyed = true := by
  cases l with
  | nil => exact absurd hm (by simp)
  | cons a t =>
      cases a with
      | created hid => simp [okRun] at h
      | destroyed hid =>
          cases m with
          | zero => simp [SeatNote.isCreated] at hc
          | succ m => exact ⟨0, by simp, Nat.succ_pos m, rfl⟩

/-- In any well-formed trace, two `created` notes always have a `destroyed`
note strictly between them. -/
theorem okRun_no_double_created (l : List SeatNote) : ∀ b : Bool,
    (okRun b l).isSome = true →
    ∀ (i j : Nat) (hj : j < l.length) (hij : i < j),
      (l.get ⟨i, lt_trans hij hj⟩).isCreated = true →
      (l.get ⟨j, hj⟩).isCreated = true →
      ∃ k, ∃ hk : k < l.length, i < k ∧ k < j ∧ (l.get ⟨k, hk⟩).isDestroyed = true := by
  induction l with
  | nil =>
      intro b h i j hj
      exact absurd hj (by simp)
  | cons a t ih =>
      intro b h i j hj hij hci hcj
      cases i with
      | zero =>
          cases a with
          | destroyed hid => simp [SeatNote.isCreated] at hci
          | created hid =>
              cases b with
              | true => simp [okRun] at h
              | false =>
                  obtain ⟨j', rfl⟩ : ∃ j', j = j' + 1 := ⟨j - 1, by omega⟩
                  have hj' : j' < t.length := by simpa using hj
                  have hcj' : (t.get ⟨j', hj'⟩).isCreated = true := by simpa using hcj
                  obtain ⟨k, hk, hkm, hdk⟩ :=
                    okRun_true_created_preceded t (by simpa [okRun] using h) j' hj' hcj'
                  exact ⟨k + 1, by simpa using Nat.succ_lt_succ hk, Nat.succ_pos k,
                    Nat.succ_lt_succ hkm, by simpa using hdk⟩
      | succ i' =>
          obtain ⟨j', rfl⟩ : ∃ j', j = j' + 1 := ⟨j - 1, by omega⟩
          have hj' : j' < t.length := by simpa using hj
          have hij' : i' < j' := by omega
          have ht : ∃ b', (okRun b' t).isSome = true := by
            cases a with
            | created hid =>
                cases b with
                | false => exact ⟨true, by simpa [okRun] using h⟩
                | true => simp [okRun] at h
            | destroyed hid =>
                cases b with
                | true => exact ⟨false, by simpa [okRun] using h⟩
                | false => simp [okRun] at h
          obtain ⟨b', hb'⟩ := ht
          have hci' : (t.get ⟨i', lt_trans hij' hj'⟩).isCreated = true := by simpa using hci
          have hcj' : (t.get ⟨j', hj'⟩).isCreated = true := by simpa using hcj
          obtain ⟨k, hk, hik, hkj, hdk⟩ := ih b' hb' i' j' hj' hij' hci' hcj'
          exact ⟨k + 1, by simpa using Nat.succ_lt_succ hk, Nat.succ_lt_succ hik,
            Nat.succ_lt_succ hkj, by simpa using hdk⟩

/-- Claim C8: registering a new handler while one is installed sends the old
handler seat-destroyed and then the new handler seat-created, in that order;
and for any starting backend and any sequence of `set_handler` /
`clear_handler` calls, the produced notification trace never contains two
seat-created notes without a seat-destroyed note strictly between them. -/
theorem C8_handler_lifecycle :
    (∀ (b : WinitInputBackend) (a hid : Nat), b.handler = some a →
        (b.set_handler hid).2 = [SeatNote.destroyed a, SeatNote.created hid])
    ∧ (∀ (b : WinitInputBackend) (ops : List HandlerOp) (i j : Nat)
        (hj : j < (runOps b ops).2.length) (hij : i < j),
        ((runOps b ops).2.get ⟨i, lt_trans hij hj⟩).isCreated = true →
        ((runOps b ops).2.get ⟨j, hj⟩).isCreated = true →
        ∃ k, ∃ hk : k < (runOps b ops).2.length, i < k ∧ k < j
          ∧ ((runOps b ops).2.get ⟨k, hk⟩).isDestroyed = true) := by
  constructor
  · intro b a hid hb
    simp [WinitInputBackend.set_handler, WinitInputBackend.clear_handler, hb]
  · intro b ops i j hj hij hci hcj
    exact okRun_no_double_created (runOps b ops).2 b.handler.isSome
      (by rw [runOps_okRun]; rfl) i j hj hij hci hcj

/-- Witness for C8 at a concrete input: replacing handler 1 by handler 2
notifies destruction before creation, and in the trace of
`[set 1, set 2]` from a fresh adapter the two created notes (positions 0 and
2) have a destroyed note between them. -/
theorem C8_handler_lifecycle_witness :
    (WinitInputBackend.set_handler { initialInput exWindow with handler := some 1 } 2).2
      = [SeatNote.destroyed 1, SeatNote.created 2]
    ∧ ∃ k, ∃ hk : k < (runOps (initialInput exWindow) [HandlerOp.set 1, HandlerOp.set 2]).2.length,
        0 < k ∧ k < 2
        ∧ ((runOps (initialInput exWindow)
            [HandlerOp.set 1, HandlerOp.set 2]).2.get ⟨k, hk⟩).isDestroyed = true :=
  ⟨C8_handler_lifecycle.1 _ 1 2 rfl,
   C8_handler_lifecycle.2 (initialInput exWindow) [HandlerOp.set 1, HandlerOp.set 2]
     0 2 (by decide) (by decide) (by decide) (by decide)⟩

/-- Press count of a batch headed by a press. -/
theorem pressN_cons_pressed (k : Nat) (tl : List (ElementState × Nat)) :
    pressN ((ElementState.Pressed, k) :: tl) = pressN tl + 1 := by
  simp [pressN, List.countP_cons]

/-- Press count of a batch headed by a release. -/
theorem pressN_cons_released (k : Nat) (tl : List (ElementState × Nat)) :
    pressN ((ElementState.Released, k) :: tl) = pressN tl := by
  simp [pressN, List.countP_cons]

/-- Release count of a batch headed by a press. -/
theorem relN_cons_pressed (k : Nat) (tl : List (ElementState × Nat)) :
    relN ((ElementState.Pressed, k) :: tl) = relN tl := by
  simp [relN, List.countP_cons]

/-- Release count of a batch headed by a release. -/
theorem relN_cons_released (k : Nat) (tl : List (ElementState × Nat)) :
    relN ((ElementState.Released, k) :: tl) = relN tl + 1 := by
  simp [relN, List.countP_cons]

/-- Key-counter evolution over a keyboard batch: as long as no prefix drives
the counter below zero (the balance hypothesis), the final counter moves by
exactly presses − releases. -/
theorem dispatchBatch_key_counter (ks : List (ElementState × Nat)) : ∀ st : DispatchState,
    (∀ i : Nat, relN (ks.take i) ≤ st.key_counter + pressN (ks.take i)) →
    st.key_counter + pressN ks < 2 ^ 32 →
    (dispatchBatch true st (keyEvs ks)).1.key_counter + relN ks
      = st.key_counter + pressN ks := by
  induction ks with
  | nil =>
      intro st hbal hbound
      simp [keyEvs, dispatchBatch, pressN, relN]
  | cons p tl ih =>
      obtain ⟨s, key⟩ := p
      intro st hbal hbound
      cases s with
      | Pressed =>
          have hkc : (dispatchStep true st
                (WindowEvent.KeyboardInput ElementState.Pressed key)).1.key_counter
              = st.key_counter + 1 := by
            show (st.key_counter + 1) % 2 ^ 32 = st.key_counter + 1
            apply Nat.mod_eq_of_lt
            rw [pressN_cons_pressed] at hbound
            omega
          have hbal' : ∀ i : Nat, relN (tl.take i)
              ≤ (dispatchStep true st
                  (WindowEvent.KeyboardInput ElementState.Pressed key)).1.key_counter
                + pressN (tl.take i) := by
            intro i
            rw [hkc]
            have hh := hbal (i + 1)
            rw [List.take_succ_cons, pressN_cons_pressed, relN_cons_pressed] at hh
            omega
          have hbound' : (dispatchStep true st
                (WindowEvent.KeyboardInput ElementState.Pressed key)).1.key_counter
              + pressN tl < 2 ^ 32 := by
            rw [hkc]
            rw [pressN_cons_pressed] at hbound
            omega
          have hrec := ih _ hbal' hbound'
          show (dispatchBatch true (dispatchStep true st
              (WindowEvent.KeyboardInput ElementState.Pressed key)).1
              (keyEvs tl)).1.key_counter
            + relN ((ElementState.Pressed, key) :: tl)
            = st.key_counter + pressN ((ElementState.Pressed, key) :: tl)
          rw [relN_cons_pressed, pressN_cons_pressed]
          rw [hkc] at hrec
          omega
      | Released =>
          have h1c : 1 ≤ st.key_counter := by
            have hh := hbal 1
            rw [List.take_succ_cons, relN_cons_released, pressN_cons_released] at hh
            simp [relN, pressN] at hh
            omega
          have hkc : (dispatchStep true st
                (WindowEvent.KeyboardInput ElementState.Released key)).1.key_counter
              = st.key_counter - 1 := rfl
          have hbal' : ∀ i : Nat, relN (tl.take i)
              ≤ (dispatchStep true st
                  (WindowEvent.KeyboardInput ElementState.Released key)).1.key_counter
                + pressN (tl.take i) := by
            intro i
            rw [hkc]
            have hh := hbal (i + 1)
            rw [List.take_succ_cons, relN_cons_released, pressN_cons_released] at hh
            omega
          have hbound' : (dispatchStep true st
                (WindowEvent.KeyboardInput ElementState.Released key)).1.key_counter
              + pressN tl < 2 ^ 32 := by
            rw [hkc]
            rw [pressN_cons_released] at hbound
            omega
          have hrec := ih _ hbal' hbound'
          show (dispatchBatch true (dispatchStep true st
              (WindowEvent.KeyboardInput ElementState.Released key)).1
              (keyEvs tl)).1.key_counter
            + relN ((ElementState.Released, key) :: tl)
            = st.key_counter + pressN ((ElementState.Released, key) :: tl)
          rw [relN_cons_released, pressN_cons_released]
          rw [hkc] at hrec
          omega

/-- Each keyboard event in a keyboard batch produces exactly one delivery,
and the i-th delivery carries the key counter value right after the i-th
event was processed. -/
theorem dispatchBatch_key_counts (ks : List (ElementState × Nat)) :
    ∀ (st : DispatchState) (i : Nat), i < ks.length →
    ((dispatchBatch true st (keyEvs ks)).2.map Delivery.keyCount).get? i
      = some (some ((dispatchBatch true st (keyEvs (ks.take (i + 1)))).1.key_counter)) := by
  induction ks with
  | nil =>
      intro st i hi
      exact absurd hi (by simp)
  | cons p tl ih =>
      obtain ⟨s, key⟩ := p
      intro st i hi
      cases i with
      | zero => rfl
      | succ j =>
          have hj : j < tl.length := by simpa using hi
          exact ih (dispatchStep true st (WindowEvent.KeyboardInput s key)).1 j hj

/-- Claim C4 (amended): for every keyboard press/release batch in which no
prefix contains more releases than presses, the key counter after the batch
equals presses − releases (applied to each prefix of the sequence this gives
the counter after every event; over the naturals this truncated difference is
exactly max(0, presses − releases)), and the i-th emitted keyboard-key event
carries the post-update counter value.  In general the code floors the
counter at 0 at each individual release rather than computing
max(0, presses − releases) over the whole history; see the counterexample. -/
theorem C4_key_counter (st : DispatchState) (ks : List (ElementState × Nat))
    (h0 : st.key_counter = 0)
    (hbal : ∀ i : Nat, relN (ks.take i) ≤ pressN (ks.take i))
    (hlen : ks.length < 2 ^ 32) :
    ((dispatchBatch true st (keyEvs ks)).1.key_counter = pressN ks - relN ks)
    ∧ (∀ i : Nat, i < ks.length →
        ((dispatchBatch true st (keyEvs ks)).2.map Delivery.keyCount).get? i
          = some (some (pressN (ks.take (i + 1)) - relN (ks.take (i + 1))))) := by
  have hpl : pressN ks ≤ ks.length := List.countP_le_length _
  have hbal' : ∀ i : Nat, relN (ks.take i) ≤ st.key_counter + pressN (ks.take i) := by
    intro i
    rw [h0]
    simpa using hbal i
  have hbound : st.key_counter + pressN ks < 2 ^ 32 := by omega
  have hrl : relN ks ≤ pressN ks := by
    have hh := hbal ks.length
    rwa [List.take_length] at hh
  have hmain := dispatchBatch_key_counter ks st hbal' hbound
  constructor
  · omega
  · intro i hi
    have hbalT : ∀ j : Nat, relN ((ks.take (i + 1)).take j)
        ≤ st.key_counter + pressN ((ks.take (i + 1)).take j) := by
      intro j
      rw [List.take_take]
      exact hbal' _
    have hboundT : st.key_counter + pressN (ks.take (i + 1)) < 2 ^ 32 := by
      have h2 : pressN (ks.take (i + 1)) ≤ (ks.take (i + 1)).length :=
        List.countP_le_length _
      have h3 : (ks.take (i + 1)).length ≤ ks.length := by
        rw [List.length_take]
        exact Nat.min_le_right _ _
      omega
    have heq := dispatchBatch_key_counter (ks.take (i + 1)) st hbalT hboundT
    have hb2 := hbal (i + 1)
    have hfin : (dispatchBatch true st (keyEvs (ks.take (i + 1)))).1.key_counter
        = pressN (ks.take (i + 1)) - relN (ks.take (i + 1)) := by omega
    rw [dispatchBatch_key_counts ks st i hi, hfin]

/-- Counterexample to claim C4 as stated: for the batch
[release key 5, press key 5] the counter after the second event is 1, while
max(0, presses − releases) = max(0, 1 − 1) = 0, so the counter does not equal
the claimed formula for every interleaving. -/
theorem C4_max_formula_counterexample :
    (dispatchBatch true exState (keyEvs exRP)).1.key_counter = 1
    ∧ pressN exRP - relN exRP = 0
    ∧ max 0 ((pressN exRP : Int) - (relN exRP : Int)) = 0
    ∧ ¬ ((dispatchBatch true exState (keyEvs exRP)).1.key_counter
          = pressN exRP - relN exRP) := by
  refine ⟨by decide, by decide, by decide, by decide⟩

/-- Witness for C4 at a concrete input: the spec's worked example
[press A, press B, release A] ends with counter 1 = presses − releases, and
its second delivery carries count 2. -/
theorem C4_key_counter_witness :
    ((dispatchBatch true exState (keyEvs exPPR)).1.key_counter
        = pressN exPPR - relN exPPR)
    ∧ ((dispatchBatch true exState (keyEvs exPPR)).2.map Delivery.keyCount).get? 1
        = some (some (pressN (exPPR.take 2) - relN (exPPR.take 2))) :=
  ⟨(C4_key_counter exState exPPR rfl (by
      intro i
      rcases i with _ | _ | _ | n
      · decide
      · decide
      · decide
      · rw [List.take_of_length_le (by simp [exPPR])]
        decide) (by decide)).1,
   (C4_key_counter exState exPPR rfl (by
      intro i
      rcases i with _ | _ | _ | n
      · decide
      · decide
      · decide
      · rw [List.take_of_length_le (by simp [exPPR])]
        decide) (by decide)).2 1 (by decide)⟩
